import Mathlib

/-!
Verification of whep-play: the WHEP negotiation of `src/main.cpp`.

A shallow embedding of the playback client.  The process is a `World`: the
`CustomData` record, the process status, the trace of everything the process
did or observed (console output, HTTP requests, signals emitted on the
WebRTC engine, promise results read), the promises the engine holds, and the
links of the media chain.  The HTTP server, the WebRTC engine and the
element factory are inputs: an `Env` gives the response to the offer POST,
the outcome of every set-up call, and the list of events the main loop
dispatches.
-/

namespace WhepPlay

/-! ## Strings crossing the C boundary -/

/-- The NUL character that terminates a C string. -/
def nul : Char := Char.ofNat 0

/-- Text of the C string stored in a buffer: the characters before the first
NUL.  It is what `std::string(const char*)`, `strlen` and a `const char*`
argument see of the buffer. -/
def cstr (s : String) : String := ⟨s.data.takeWhile (fun c => c != nul)⟩

/-! ## Types of the collaborating libraries -/

/-- Result of `gst_promise_wait`. -/
inductive GstPromiseResult where
  | pending
  | interrupted
  | replied
  | expired
  deriving DecidableEq

/-- Handle of a parsed SDP message (`GstSDPMessage*`). -/
structure GstSDPMessage where
  handle : Nat
  deriving DecidableEq

/-- Kind of a session description (`GstWebRTCSDPType`). -/
inductive GstWebRTCSDPType where
  | offer
  | pranswer
  | answer
  | rollback
  deriving DecidableEq

/-- Session description (`GstWebRTCSessionDescription`); `sdp` is a pointer
and may be null, which `onAnswerCreatedCallback` tests. -/
structure GstWebRTCSessionDescription where
  type : GstWebRTCSDPType
  sdp : Option GstSDPMessage
  deriving DecidableEq

/-- Reply structure of a promise, reduced to its `answer` field (absent when
the engine replied without one). -/
structure GstStructure where
  answer : Option GstWebRTCSessionDescription
  deriving DecidableEq

/-- Element handle (`GstElement*`), identified by its name. -/
structure GstElement where
  name : String
  deriving DecidableEq

/-- What a call of gst_sdp_message_new_from_text leaves behind: `ok` tells
whether the result is `GST_SDP_OK`, and `message` is the value of the
out-pointer after the call (null or a message), which the library decides
independently of the result. -/
structure SdpParse where
  ok : Bool
  message : Option GstSDPMessage
  deriving DecidableEq

/-- Functions of libsoup and of the GStreamer SDP library whose results the
program branches on.
* `soup_message_new url` is `true` when libsoup can build a request for
  `url` (the C function returns a non-null message);
* `sdp_message_new_from_text` gives the result code and the out-pointer of
  the parser;
* `sdp_message_as_text` is the text of a parsed message. -/
structure Lib where
  soup_message_new : String → Bool
  sdp_message_new_from_text : String → SdpParse
  sdp_message_as_text : GstSDPMessage → String

/-- Library call gst_webrtc_session_description_new: it refuses a null message
and returns null, the case `handleSDPs` tests after the call. -/
def gst_webrtc_session_description_new (t : GstWebRTCSDPType)
    (m : Option GstSDPMessage) : Option GstWebRTCSessionDescription :=
  match m with
  | none => none
  | some x => some ⟨t, some x⟩

/-- Library call gst_structure_get for the field `answer`: the out-pointer keeps
its initial null when the reply is null or has no such field. -/
def gst_structure_get_answer (reply : Option GstStructure) :
    Option GstWebRTCSessionDescription :=
  match reply with
  | none => none
  | some r => r.answer

/-- Response of the HTTP server as `soup_session_send_message` leaves it in
the message: status code, body buffer, and the `Location` header if any. -/
structure HttpResponse where
  status : Nat
  body : String
  location : Option String
  deriving DecidableEq

/-! ## Program state -/

/-- The `CustomData` struct of `main.cpp`. -/
structure CustomData where
  webrtc_source : Option GstElement := none
  pipeline : Option GstElement := none
  rtp_depay_vp8 : Option GstElement := none
  vp8_decoder : Option GstElement := none
  sinkElement : Option GstElement := none
  sdpOffer : String := ""
  sdpAnswer : String := ""
  location : String := ""
  whepURL : String := ""
  deriving DecidableEq

/-- The two promise change functions of the program. -/
inductive ChangeFunc where
  | onRemoteDescSetCallback
  | onAnswerCreatedCallback
  deriving DecidableEq

/-- One entry of the trace. -/
inductive Action where
  /-- Call of printf with a fixed text. -/
  | print (text : String)
  /-- Call of printf with the format (%d):%s, a status code and a body. -/
  | printStatus (status : Nat) (body : String)
  /-- The line Received new pad of padAddedHandler. -/
  | printPad (pad : String)
  /-- Call of soup_session_send_message with a request. -/
  | soupSend (method url contentType body : String)
  /-- Entry into patchAnswer, with the fields it reads. -/
  | callPatchAnswer (location sdpAnswer : String)
  /-- Signal set-remote-description emitted on the engine. -/
  | emitSetRemoteDescription (desc : Option GstWebRTCSessionDescription) (promise : Nat)
  /-- Signal create-answer emitted on the engine. -/
  | emitCreateAnswer (promise : Nat)
  /-- Signal set-local-description emitted on the engine. -/
  | emitSetLocalDescription (desc : GstWebRTCSessionDescription)
  /-- Result that gst_promise_wait returned for a promise. -/
  | promiseWait (promise : Nat) (result : GstPromiseResult)
  deriving DecidableEq

/-- Status of the process. `undefinedBehaviour` is reached when the program
dereferences a null pointer, builds a `std::string` from a null pointer, or
reads an object it has released. -/
inductive Proc where
  | running
  | exited (code : Nat)
  | undefinedBehaviour
  deriving DecidableEq

/-- Links of the fixed chain source -> depacketizer -> decoder -> renderer.
Each element of the chain has one sink pad and a pad holds at most one link,
so each stage is linked or not. -/
structure Links where
  srcDepay : Bool := false
  depayDec : Bool := false
  decSink : Bool := false
  deriving DecidableEq

/-- State of the process and of what it has handed to its collaborators. -/
structure World where
  data : CustomData := {}
  proc : Proc := Proc.running
  trace : List Action := []
  promises : List (Nat × ChangeFunc) := []
  nextPromise : Nat := 0
  links : Links := {}
  deriving DecidableEq

/-- Append one entry to the trace. -/
def World.log (w : World) (a : Action) : World :=
  { w with trace := w.trace ++ [a] }

/-- The call of the C function exit with a code. -/
def World.terminate (w : World) (code : Nat) : World :=
  { w with proc := Proc.exited code }

/-- The program has run into undefined behaviour. -/
def World.undefined (w : World) : World :=
  { w with proc := Proc.undefinedBehaviour }

/-- Call of g_signal_emit_by_name for a signal that carries a promise: the engine
receives the request and holds the promise with its change function.  On a
null instance GLib refuses the emission. -/
def World.emitWithPromise (w : World) (a : Action) (p : Nat) (f : ChangeFunc) : World :=
  match w.data.webrtc_source with
  | none => w
  | some _ => { w with trace := w.trace ++ [a], promises := w.promises ++ [(p, f)] }

/-- Call of g_signal_emit_by_name for a signal without promise. -/
def World.emit (w : World) (a : Action) : World :=
  match w.data.webrtc_source with
  | none => w
  | some _ => w.log a

/-! ## Signalling transport -/

/-- Function getPostOffer (main.cpp 82-113).  Returns the vector when the function
returns, `none` when it does not. -/
def getPostOffer (lib : Lib) (resp : HttpResponse) (w : World) :
    Option (List String) × World :=
  if !lib.soup_message_new (cstr w.data.whepURL) then
    (none, (w.log (.print "ERROR: NULL msg in getPostOffer()\n")).terminate 1)
  else
    let w := w.log (.soupSend "POST" (cstr w.data.whepURL) "application/sdp" "")
    let statusCode := resp.status
    if statusCode ≠ 200 ∧ statusCode ≠ 201 then
      (none, (w.log (.printStatus statusCode (cstr resp.body))).terminate 1)
    else
      let sdpOffer := cstr resp.body
      match resp.location with
      | none => (none, w.undefined)
      | some location => (some [sdpOffer, cstr location], w)

/-- Function patchAnswer (main.cpp 115-137); `statusCode` is the status the server
gives to the PATCH.  On a status other than 204 the diagnostic reads
`msg->response_body->data` after `msg` was released two lines above. -/
def patchAnswer (lib : Lib) (statusCode : Nat) (w : World) : World :=
  let w := w.log (.callPatchAnswer w.data.location w.data.sdpAnswer)
  if !lib.soup_message_new (cstr w.data.location) then
    (w.log (.print "ERROR: when creating msg in patchAnswer()\n")).terminate 1
  else
    let sdp := cstr w.data.sdpAnswer
    let w := w.log (.soupSend "PATCH" (cstr w.data.location) "application/sdp" (cstr sdp))
    if statusCode ≠ 204 then
      w.undefined
    else
      w

/-! ## Negotiation -/

/-- Function handleSDPs (main.cpp 59-80).  The test of line 65 looks at the
result code only; `offerMessage` is whatever the parser left in it. -/
def handleSDPs (lib : Lib) (w : World) : World :=
  let parsed := lib.sdp_message_new_from_text (cstr w.data.sdpOffer)
  let offerMessage := parsed.message
  let w := if !parsed.ok then
      w.log (.print "Unable to create SDP object from offer\n") else w
  let offerDesc := gst_webrtc_session_description_new .offer offerMessage
  let w := if offerDesc.isNone then
      w.log (.print "Unable to create SDP object from offer msg\n") else w
  let promiseRemote := w.nextPromise
  let w := { w with nextPromise := w.nextPromise + 1 }
  let w := if w.data.webrtc_source.isNone then
      w.log (.print "webrtc_source is NULL\n") else w
  w.emitWithPromise (.emitSetRemoteDescription offerDesc promiseRemote) promiseRemote
    .onRemoteDescSetCallback

/-- Function onNegotiationNeededCallback (main.cpp 247-251). -/
def onNegotiationNeededCallback (lib : Lib) (w : World) : World :=
  handleSDPs lib w

/-- Function onRemoteDescSetCallback (main.cpp 253-265); `result` is what
`gst_promise_wait` returns for `promise`. -/
def onRemoteDescSetCallback (promise : Nat) (result : GstPromiseResult) (w : World) : World :=
  let w := w.log (.promiseWait promise result)
  if result ≠ .replied then
    (w.log (.print "onRemoteDescSetCallback: Failed to receive promise reply\n")).terminate 1
  else
    let promiseAnswer := w.nextPromise
    let w := { w with nextPromise := w.nextPromise + 1 }
    w.emitWithPromise (.emitCreateAnswer promiseAnswer) promiseAnswer .onAnswerCreatedCallback

/-- Function onAnswerCreatedCallback (main.cpp 267-290); `reply` is what
`gst_promise_get_reply` returns and `patchStatus` the status the server
gives if a PATCH is sent. -/
def onAnswerCreatedCallback (lib : Lib) (promise : Nat) (result : GstPromiseResult)
    (reply : Option GstStructure) (patchStatus : Nat) (w : World) : World :=
  let w := w.log (.promiseWait promise result)
  if result ≠ .replied then
    (w.log (.print "onAnswerCreatedCallback: Failed to receive promise reply\n")).terminate 1
  else
    match gst_structure_get_answer reply with
    | none => w.undefined
    | some answerPointer =>
      let w := if answerPointer.sdp.isNone then
          w.log (.print "ERROR: No answer sdp!\n") else w
      let w := w.emit (.emitSetLocalDescription answerPointer)
      match answerPointer.sdp with
      | none => w.undefined
      | some sdp =>
        let w := { w with data := { w.data with sdpAnswer := cstr (lib.sdp_message_as_text sdp) } }
        patchAnswer lib patchStatus w

/-! ## Pipeline controller -/

/-- Capability answers of the three link attempts of one `pad-added`. -/
structure Caps where
  srcDepay : Bool
  depayDec : Bool
  decSink : Bool
  deriving DecidableEq

/-- Modelled from the spec: the library call
gst_element_link_many(src, depay, decoder, sink), which is not part of the
sources.  The pad is linked through the fixed chain depacketizer -> decoder
-> renderer in that order, and linking a stage fails on a capability
mismatch or an already-linked pad (section 4.3); the first failure stops the
call, as the library documents.  The result is the success flag and the
links afterwards. -/
def gst_element_link_many (l : Links) (c : Caps) : Bool × Links :=
  if l.srcDepay || !c.srcDepay then (false, l)
  else
    let l := { l with srcDepay := true }
    if l.depayDec || !c.depayDec then (false, l)
    else
      let l := { l with depayDec := true }
      if l.decSink || !c.decSink then (false, l)
      else (true, { l with decSink := true })

/-- Function padAddedHandler (main.cpp 237-245). -/
def padAddedHandler (pad : String) (c : Caps) (w : World) : World :=
  let w := w.log (.printPad pad)
  let r := gst_element_link_many w.links c
  let w := { w with links := r.2 }
  if !r.1 then w.log (.print "Failed to link source to sink\n") else w

/-! ## Main loop and `main` -/

/-- What the main loop dispatches. -/
inductive Event where
  /-- Signal on-negotiation-needed of the engine. -/
  | negotiationNeeded
  /-- Signal pad-added of the engine. -/
  | padAdded (pad : String) (caps : Caps)
  /-- The engine changes a promise and its change function runs. -/
  | promiseChange (promise : Nat) (result : GstPromiseResult)
      (reply : Option GstStructure) (patchStatus : Nat)
  /-- SIGINT, on which intSignalHandler quits the loop. -/
  | interrupt
  deriving DecidableEq

/-- Change function registered for a promise the engine holds. -/
def lookupPromise (ps : List (Nat × ChangeFunc)) (p : Nat) : Option ChangeFunc :=
  match ps with
  | [] => none
  | (q, f) :: rest => if q = p then some f else lookupPromise rest p

/-- Dispatch of one event other than the interrupt.  A promise runs its
change function once, when the engine holds it. -/
def dispatch (lib : Lib) (e : Event) (w : World) : World :=
  match e with
  | .negotiationNeeded => onNegotiationNeededCallback lib w
  | .padAdded pad caps => padAddedHandler pad caps w
  | .promiseChange p result reply patchStatus =>
    match lookupPromise w.promises p with
    | none => w
    | some f =>
      let w := { w with promises := w.promises.filter (fun q => q.1 != p) }
      match f with
      | .onRemoteDescSetCallback => onRemoteDescSetCallback p result w
      | .onAnswerCreatedCallback => onAnswerCreatedCallback lib p result reply patchStatus w
  | .interrupt => w

/-- Destructor of `CustomData`, run when `main` returns. -/
def destruct (w : World) : World :=
  w.log (.print "\nDestructing resources...\n")

/-- Return from main with an exit code. -/
def mainReturn (code : Nat) (w : World) : World :=
  (destruct w).terminate code

/-- Call of g_main_loop_run followed by the teardown of main (main.cpp 228-234):
events are dispatched one at a time while the process runs; the interrupt
ends the loop and `main` returns 0.  When the events are used up the process
is still in the loop. -/
def mainLoop (lib : Lib) (events : List Event) (w : World) : World :=
  match events with
  | [] => w
  | e :: rest =>
    match w.proc with
    | .running =>
      match e with
      | .interrupt => mainReturn 0 w
      | _ => mainLoop lib rest (dispatch lib e w)
    | _ => w

/-- Outcome of the set-up calls of `main`, in program order: `true` when
the call succeeds. -/
structure Setup where
  webrtcbin : Bool
  glimagesink : Bool
  rtpvp8depay : Bool
  vp8dec : Bool
  pipeline : Bool
  addSource : Bool
  addDepay : Bool
  addDecoder : Bool
  addSink : Bool
  playing : Bool
  deriving DecidableEq

/-- Inputs of one run. -/
structure Env where
  argv : List String
  post : HttpResponse
  setup : Setup
  events : List Event

/-- A failed set-up step of `main`: message, then `return 1`. -/
def setupFail (text : String) (w : World) : World :=
  mainReturn 1 (w.log (.print text))

/-- Element creation and assembly of `main` (main.cpp 153-224), up to the
start of the loop. -/
def mainSetup (s : Setup) (w : World) : World :=
  if !s.webrtcbin then
    setupFail "Failed to make element source. Note: GST_PLUGIN_PATH needs to be set as described in the README.\n" w
  else
  let w := { w with data := { w.data with webrtc_source := some ⟨"source"⟩ } }
  if !s.glimagesink then setupFail "Failed to make element gli_sink\n" w
  else
  let w := { w with data := { w.data with sinkElement := some ⟨"gli_sink"⟩ } }
  if !s.rtpvp8depay then setupFail "Failed to make element rtp_depayloader_vp8\n" w
  else
  let w := { w with data := { w.data with rtp_depay_vp8 := some ⟨"rtp_depayloader_vp8"⟩ } }
  if !s.vp8dec then setupFail "Failed to make element vp8_decoder\n" w
  else
  let w := { w with data := { w.data with vp8_decoder := some ⟨"vp8_decoder"⟩ } }
  if !s.pipeline then setupFail "Failed to make element pipeline\n" w
  else
  let w := { w with data := { w.data with pipeline := some ⟨"pipeline"⟩ } }
  if !s.addSource then
    setupFail "Failed to add element source. Note: GST_PLUGIN_PATH needs to be set as described in the README\n\n" w
  else if !s.addDepay then setupFail "Failed to add element rtp_depayloader_vp8\n" w
  else if !s.addDecoder then setupFail "Failed to add element vp8_decoder\n" w
  else if !s.addSink then setupFail "Failed to add element gli_sink\n" w
  else
  let w := w.log (.print "Start playing...\n")
  if !s.playing then setupFail "Unable to set the pipeline to the playing state\n" w
  else w.log (.print "Looping...\n")

/-- The offer fetch of `main` (main.cpp 141-151): argument check, the call of
`getPostOffer`, and the two stores. -/
def mainFetch (lib : Lib) (env : Env) : World :=
  let w : World := {}
  if env.argv.length < 2 then
    mainReturn 1
      (w.log (.print "Usage: GST_PLUGIN_PATH=my/plugin/path/gstreamer-1.0 ./whep-play WHEP-URL\n"))
  else
    let w := { w with data := { w.data with whepURL := cstr (env.argv.getD 1 "") } }
    match getPostOffer lib env.post w with
    | (none, w) => w
    | (some offerLocation, w) =>
      let w := { w with data := { w.data with sdpOffer := offerLocation.getD 0 "" } }
      { w with data := { w.data with location := offerLocation.getD 1 "" } }

/-- Function main (main.cpp 139-235). -/
def main (lib : Lib) (env : Env) : World :=
  let w := mainFetch lib env
  match w.proc with
  | .running =>
    let w := mainSetup env.setup w
    match w.proc with
    | .running => mainLoop lib env.events w
    | _ => w
  | _ => w

/-! ## Projections and sample inputs used by the statements -/

/-- Absence of NUL in a text, the one property of SDP text and of header
values that the C string conversions depend on. -/
def NulFree (s : String) : Prop := nul ∉ s.data

instance (s : String) : Decidable (NulFree s) :=
  inferInstanceAs (Decidable (nul ∉ s.data))

/-- The fields that the offer fetch fills, with the endpoint. -/
def World.fetched (w : World) : String × String × String :=
  (w.data.sdpOffer, w.data.location, w.data.whepURL)

/-- The four text fields of the negotiation state. -/
def World.negotiation (w : World) : String × String × String × String :=
  (w.data.sdpOffer, w.data.sdpAnswer, w.data.location, w.data.whepURL)

/-- The chain source -> depacketizer -> decoder -> renderer is linked. -/
def Links.complete (l : Links) : Bool :=
  l.srcDepay && l.depayDec && l.decSink

/-- Entries that ask the engine to create an answer. -/
def Action.isCreateAnswer : Action → Bool
  | .emitCreateAnswer _ => true
  | _ => false

/-- Entries of the answer submission: the call of patchAnswer and the PATCH
request it sends. -/
def Action.isPatch : Action → Bool
  | .callPatchAnswer _ _ => true
  | .soupSend method _ _ _ => method == "PATCH"
  | _ => false

/-- Entries that are a call of patchAnswer. -/
def Action.isPatchCall : Action → Bool
  | .callPatchAnswer _ _ => true
  | _ => false

/-- Entries that are a PATCH request. -/
def Action.isPatchRequest : Action → Bool
  | .soupSend method _ _ _ => method == "PATCH"
  | _ => false

/-- Pad-added notifications. -/
def Event.isPad : Event → Bool
  | .padAdded _ _ => true
  | _ => false

/-- The trace holds no entry of the answer submission. -/
def NoPatch (tr : List Action) : Prop := ∀ a ∈ tr, a.isPatch = false

/-- State of a running negotiation between two steps: the process runs, the
engine element exists, `location` holds `L`, the engine holds the promises
`ps`, the next promise is `n`, and nothing of the answer submission has
happened. -/
def Stage (L : String) (ps : List (Nat × ChangeFunc)) (n : Nat) (w : World) : Prop :=
  w.proc = .running ∧ w.data.webrtc_source.isSome = true ∧ w.data.location = L
  ∧ w.promises = ps ∧ w.nextPromise = n ∧ NoPatch w.trace

/-- Entries of one answer submission for location `L` and answer text
`text`: the call of patchAnswer and, when libsoup can build the request, the
PATCH. -/
def submission (lib : Lib) (L text : String) : List Action :=
  if lib.soup_message_new L = true then
    [.callPatchAnswer L text, .soupSend "PATCH" L "application/sdp" text]
  else
    [.callPatchAnswer L text]

/-- State after the answer submission: the trace is a part without
submission entries in which the answer `A` was given to the engine as local
description, the entries `mid` of the submission, and a part without
submission entries; the engine holds no promise. -/
def Submitted (A : GstWebRTCSessionDescription) (mid : List Action) (w : World) : Prop :=
  w.promises = [] ∧ ∃ pre post, w.trace = pre ++ mid ++ post ∧ NoPatch pre ∧ NoPatch post
    ∧ Action.emitSetLocalDescription A ∈ pre

/-- Every entry of the trace that satisfies `Q` comes after a prefix that
satisfies `P`. -/
def Guarded (Q : Action → Prop) (P : List Action → Prop) (tr : List Action) : Prop :=
  ∀ pre a post, tr = pre ++ a :: post → Q a → P pre

/-- The prefix holds a set-remote-description request followed by the
reading of a reply on the promise of that request. -/
def RemoteReplied (pre : List Action) : Prop :=
  ∃ d q, [Action.emitSetRemoteDescription d q, Action.promiseWait q .replied].Sublist pre

/-- The prefix holds a set-local-description request. -/
def LocalRequested (pre : List Action) : Prop :=
  ∃ d, Action.emitSetLocalDescription d ∈ pre

/-- Invariant of the negotiation: create-answer requests come after a replied
remote description, the answer submission comes after a set-local-description
request, and every remote-description promise the engine holds belongs to a
request of the trace. -/
def TraceOk (w : World) : Prop :=
  Guarded (fun a => a.isCreateAnswer = true) RemoteReplied w.trace
  ∧ Guarded (fun a => a.isPatch = true) LocalRequested w.trace
  ∧ ∀ q, (q, ChangeFunc.onRemoteDescSetCallback) ∈ w.promises →
      ∃ d, Action.emitSetRemoteDescription d q ∈ w.trace

/-- A library instance for the examples: requests can be built for http
URLs, the parser accepts texts that start with the version line and leaves
the allocated message 0 behind when it rejects a text, and message 7
serialises to a two-line answer. -/
def sampleLib : Lib where
  soup_message_new := fun u => "http://".data.isPrefixOf u.data
  sdp_message_new_from_text := fun t =>
    if "v=0".data.isPrefixOf t.data then ⟨true, some ⟨1⟩⟩ else ⟨false, some ⟨0⟩⟩
  sdp_message_as_text := fun m =>
    if m.handle = 7 then "v=0\r\na=recvonly\r\n" else "v=0\r\n"

/-- Every set-up call succeeds. -/
def setupOk : Setup :=
  ⟨true, true, true, true, true, true, true, true, true, true⟩

/-- The scenario of the specification: endpoint `http://example/whep`, the
POST answered 201 with an offer and a session location. -/
def sampleEnv : Env where
  argv := ["whep-play", "http://example/whep"]
  post := ⟨201, "v=0\r\n...", some "http://example/whep/session/42"⟩
  setup := setupOk
  events := []

/-- An answer description with a message. -/
def sampleAnswer : GstWebRTCSessionDescription := ⟨.answer, some ⟨7⟩⟩

/-- The world of the scenario when the main loop starts. -/
def sampleStart : World := main sampleLib sampleEnv

/-- The scenario with a 201 response that has no `Location` header. -/
def noLocationEnv : Env :=
  { sampleEnv with post := ⟨201, "v=0\r\n...", none⟩ }

/-- The scenario with the POST answered 500. -/
def status500Env : Env :=
  { sampleEnv with post := ⟨500, "Internal Server Error", none⟩ }

/-- A complete negotiation: the engine asks for negotiation, replies to the
remote description, replies to create-answer with `sampleAnswer`, and the
server gives `patchStatus` to the PATCH. -/
def negotiationEvents (patchStatus : Nat) : List Event :=
  [.negotiationNeeded,
   .promiseChange 0 .replied none 0,
   .promiseChange 1 .replied (some ⟨some sampleAnswer⟩) patchStatus]

/-- The scenario followed by a complete negotiation. -/
def negotiationEnv (patchStatus : Nat) : Env :=
  { sampleEnv with events := negotiationEvents patchStatus }

/-- The scenario with an empty offer body, which the parser rejects (an empty
buffer is an invalid argument of the SDP parser). -/
def badOfferEnv : Env :=
  { sampleEnv with
    post := ⟨201, "", some "http://example/whep/session/42"⟩
    events := [.negotiationNeeded, .promiseChange 0 .replied none 0] }

/-- The scenario with a relative reference as `Location` header, followed by
a complete negotiation. -/
def relativeLocationEnv : Env :=
  { sampleEnv with
    post := ⟨201, "v=0\r\n...", some "/whep/session/42"⟩
    events := negotiationEvents 204 }

/-- The scenario followed by two complete negotiation rounds: the engine
signals on-negotiation-needed a second time after the first answer was
submitted with status 204. -/
def twoRoundEnv : Env :=
  { sampleEnv with
    events := [.negotiationNeeded,
      .promiseChange 0 .replied none 0,
      .promiseChange 1 .replied (some ⟨some sampleAnswer⟩) 204,
      .negotiationNeeded,
      .promiseChange 2 .replied none 0,
      .promiseChange 3 .replied (some ⟨some sampleAnswer⟩) 204] }

/-- The scenario with a create-answer reply that has no answer field. -/
def noAnswerEnv : Env :=
  { sampleEnv with
    events := [.negotiationNeeded,
      .promiseChange 0 .replied none 0,
      .promiseChange 1 .replied (some ⟨none⟩) 204] }

/-- The scenario with pad-added notifications around a complete negotiation
and an interrupt at the end. -/
def busyEnv : Env :=
  { sampleEnv with
    events := [.padAdded "src_0" ⟨true, true, true⟩,
      .negotiationNeeded,
      .padAdded "src_1" ⟨true, true, true⟩,
      .promiseChange 0 .replied none 0,
      .promiseChange 1 .replied (some ⟨some sampleAnswer⟩) 204,
      .padAdded "src_2" ⟨true, true, true⟩,
      .interrupt] }

/-- The scenario with a create-answer reply whose answer has no SDP. -/
def noSdpAnswerEnv : Env :=
  { sampleEnv with
    events := [.negotiationNeeded,
      .promiseChange 0 .replied none 0,
      .promiseChange 1 .replied (some ⟨some ⟨.answer, none⟩⟩) 204] }

/-! ## Basic facts -/

theorem cstr_of_nulFree (s : String) (h : NulFree s) : cstr s = s := by
  have : s.data.takeWhile (fun c => c != nul) = s.data := by
    rw [List.takeWhile_eq_self_iff]
    intro c hc
    have : c ≠ nul := fun e => h (e ▸ hc)
    simpa using this
  show (⟨s.data.takeWhile (fun c => c != nul)⟩ : String) = s
  rw [this]

theorem cstr_cstr (s : String) : cstr (cstr s) = cstr s := by
  apply cstr_of_nulFree
  intro h
  have := List.mem_takeWhile_imp h
  simp at this

theorem mainLoop_stopped (lib : Lib) (evs : List Event) (w : World)
    (h : w.proc ≠ .running) : mainLoop lib evs w = w := by
  cases evs with
  | nil => rfl
  | cons e rest =>
    unfold mainLoop
    split
    · contradiction
    · rfl

/-! ## Fields that only the offer fetch writes -/

theorem handleSDPs_data (lib : Lib) (w : World) : (handleSDPs lib w).data = w.data := by
  unfold handleSDPs World.emitWithPromise World.log
  simp only
  repeat' split
  all_goals rfl

theorem onRemoteDescSetCallback_data (p : Nat) (r : GstPromiseResult) (w : World) :
    (onRemoteDescSetCallback p r w).data = w.data := by
  unfold onRemoteDescSetCallback World.emitWithPromise World.log World.terminate
  simp only
  repeat' split
  all_goals rfl

theorem patchAnswer_data (lib : Lib) (st : Nat) (w : World) :
    (patchAnswer lib st w).data = w.data := by
  unfold patchAnswer World.log World.terminate World.undefined
  simp only
  repeat' split
  all_goals rfl

theorem padAddedHandler_data (pad : String) (c : Caps) (w : World) :
    (padAddedHandler pad c w).data = w.data := by
  unfold padAddedHandler World.log
  simp only
  repeat' split
  all_goals rfl

theorem onAnswerCreatedCallback_fetched (lib : Lib) (p : Nat) (r : GstPromiseResult)
    (reply : Option GstStructure) (st : Nat) (w : World) :
    (onAnswerCreatedCallback lib p r reply st w).fetched = w.fetched := by
  unfold onAnswerCreatedCallback
  simp only
  split
  · rfl
  · split
    · rfl
    · split
      · unfold World.emit World.log World.undefined
        repeat' split
        all_goals rfl
      · unfold World.fetched
        rw [patchAnswer_data]
        unfold World.emit World.log
        repeat' split
        all_goals rfl

theorem dispatch_fetched (lib : Lib) (e : Event) (w : World) :
    (dispatch lib e w).fetched = w.fetched := by
  cases e with
  | negotiationNeeded =>
    show (handleSDPs lib w).fetched = w.fetched
    unfold World.fetched
    rw [handleSDPs_data]
  | padAdded pad caps =>
    show (padAddedHandler pad caps w).fetched = w.fetched
    unfold World.fetched
    rw [padAddedHandler_data]
  | promiseChange p r reply st =>
    unfold dispatch
    simp only
    split
    · rfl
    · split
      · unfold World.fetched
        rw [onRemoteDescSetCallback_data]
      · rw [onAnswerCreatedCallback_fetched]
        rfl
  | interrupt => rfl

theorem mainLoop_fetched (lib : Lib) (evs : List Event) (w : World) :
    (mainLoop lib evs w).fetched = w.fetched := by
  induction evs generalizing w with
  | nil => rfl
  | cons e rest ih =>
    unfold mainLoop
    split
    · cases e with
      | interrupt => rfl
      | negotiationNeeded => simp only; rw [ih, dispatch_fetched]
      | padAdded pad caps => simp only; rw [ih, dispatch_fetched]
      | promiseChange p r reply st => simp only; rw [ih, dispatch_fetched]
    · rfl

theorem mainSetup_fetched (s : Setup) (w : World) :
    (mainSetup s w).fetched = w.fetched := by
  rcases s with ⟨a, b, c, d, e, f, g, h, i, j⟩
  cases a
  · rfl
  cases b
  · rfl
  cases c
  · rfl
  cases d
  · rfl
  cases e
  · rfl
  cases f
  · rfl
  cases g
  · rfl
  cases h
  · rfl
  cases i
  · rfl
  cases j <;> rfl

theorem main_fetched (lib : Lib) (env : Env) :
    (main lib env).fetched = (mainFetch lib env).fetched := by
  unfold main
  simp only
  split
  · split
    · rw [mainLoop_fetched, mainSetup_fetched]
    · rw [mainSetup_fetched]
  · rfl

/-! ## Offer fetch -/

/-- C3: when the offer POST is answered 200 or 201 with a Location header L
and a body B of SDP text (text without NUL, as is the header value),
getPostOffer returns exactly the pair (B, L), whatever the world it is called
in, and main stores B as sdpOffer and L as location, where they stay for the
rest of the run. -/
theorem getPostOffer_returns_body_and_location (lib : Lib) (env : Env) (B L : String)
    (hargs : 2 ≤ env.argv.length)
    (huri : lib.soup_message_new (cstr (env.argv.getD 1 "")) = true)
    (hstatus : env.post.status = 200 ∨ env.post.status = 201)
    (hbody : env.post.body = B) (hloc : env.post.location = some L)
    (hB : NulFree B) (hL : NulFree L) :
    (∀ w : World, lib.soup_message_new (cstr w.data.whepURL) = true →
      (getPostOffer lib env.post w).1 = some [B, L])
    ∧ (main lib env).data.sdpOffer = B ∧ (main lib env).data.location = L := by
  have hnot : ¬ (env.post.status ≠ 200 ∧ env.post.status ≠ 201) := by
    rcases hstatus with h | h <;> simp [h]
  have hget : ∀ w : World, lib.soup_message_new (cstr w.data.whepURL) = true →
      getPostOffer lib env.post w =
        (some [B, L], w.log (.soupSend "POST" (cstr w.data.whepURL) "application/sdp" "")) := by
    intro w hw
    unfold getPostOffer
    simp only [hw, Bool.not_true, Bool.false_eq_true, if_false, hnot, hloc, hbody,
      cstr_of_nulFree B hB, cstr_of_nulFree L hL]
  refine ⟨fun w hw => by rw [hget w hw], ?_⟩
  have hlen : ¬ env.argv.length < 2 := by omega
  have hf : (main lib env).fetched = (B, L, cstr (env.argv.getD 1 "")) := by
    rw [main_fetched]
    unfold mainFetch
    simp only [hlen, if_false]
    rw [hget _ (by simpa [cstr_cstr] using huri)]
    rfl
  exact ⟨congrArg (fun t => t.1) hf, congrArg (fun t => t.2.1) hf⟩

theorem getPostOffer_returns_body_and_location_witness :
    (getPostOffer sampleLib sampleEnv.post
        { data := { whepURL := "http://example/whep" } }).1
      = some ["v=0\r\n...", "http://example/whep/session/42"]
    ∧ (main sampleLib sampleEnv).data.sdpOffer = "v=0\r\n..."
    ∧ (main sampleLib sampleEnv).data.location = "http://example/whep/session/42" :=
  have h := getPostOffer_returns_body_and_location sampleLib sampleEnv "v=0\r\n..."
    "http://example/whep/session/42" (by decide) (by decide) (Or.inr rfl) rfl rfl
    (by decide) (by decide)
  ⟨h.1 { data := { whepURL := "http://example/whep" } } (by decide), h.2⟩

/-- C4: when the offer POST is answered with a status other than 200 and 201,
getPostOffer does not return, the process has left with exit code 1, sdpOffer
and location are still empty, and the whole trace of the run is the POST and
the diagnostic: no signal was emitted on the engine and patchAnswer was not
called. -/
theorem offer_status_failure_exits (lib : Lib) (env : Env)
    (hargs : 2 ≤ env.argv.length)
    (huri : lib.soup_message_new (cstr (env.argv.getD 1 "")) = true)
    (hstatus : env.post.status ≠ 200 ∧ env.post.status ≠ 201) :
    (getPostOffer lib env.post { data := { whepURL := cstr (env.argv.getD 1 "") } }).1 = none
    ∧ (main lib env).proc = .exited 1
    ∧ (main lib env).data.sdpOffer = "" ∧ (main lib env).data.location = ""
    ∧ (main lib env).promises = []
    ∧ (main lib env).trace =
        [.soupSend "POST" (cstr (env.argv.getD 1 "")) "application/sdp" "",
         .printStatus env.post.status (cstr env.post.body)] := by
  have hget : getPostOffer lib env.post { data := { whepURL := cstr (env.argv.getD 1 "") } } =
      (none, { data := { whepURL := cstr (env.argv.getD 1 "") }, proc := .exited 1,
               trace := [.soupSend "POST" (cstr (env.argv.getD 1 "")) "application/sdp" "",
                 .printStatus env.post.status (cstr env.post.body)] }) := by
    unfold getPostOffer
    simp only [cstr_cstr, huri, Bool.not_true, Bool.false_eq_true, if_false]
    rw [if_pos hstatus]
    rfl
  have hlen : ¬ env.argv.length < 2 := by omega
  have hmain : main lib env =
      { data := { whepURL := cstr (env.argv.getD 1 "") }, proc := .exited 1,
        trace := [.soupSend "POST" (cstr (env.argv.getD 1 "")) "application/sdp" "",
          .printStatus env.post.status (cstr env.post.body)] } := by
    unfold main mainFetch
    simp only [hlen, if_false]
    rw [hget]
  rw [hget, hmain]
  exact ⟨rfl, rfl, rfl, rfl, rfl, rfl⟩

theorem offer_status_failure_exits_witness :
    (main sampleLib status500Env).proc = .exited 1
    ∧ (main sampleLib status500Env).trace =
        [.soupSend "POST" "http://example/whep" "application/sdp" "",
         .printStatus 500 "Internal Server Error"] :=
  have h := offer_status_failure_exits sampleLib status500Env (by decide) (by decide)
    (by decide)
  ⟨h.2.1, h.2.2.2.2.2⟩

/-- C5 (code at the failing input): the POST is answered 201 without Location
header.  getPostOffer has no test for the null header pointer and builds a
std::string from it: the run ends in undefined behaviour right after the
POST, with no diagnostic and no exit code 1. -/
theorem missing_location_is_undefined_behaviour :
    getPostOffer sampleLib noLocationEnv.post { data := { whepURL := "http://example/whep" } }
      = (none, { data := { whepURL := "http://example/whep" },
                 proc := .undefinedBehaviour,
                 trace := [.soupSend "POST" "http://example/whep" "application/sdp" ""] })
    ∧ (main sampleLib noLocationEnv).proc = .undefinedBehaviour
    ∧ (main sampleLib noLocationEnv).trace =
        [.soupSend "POST" "http://example/whep" "application/sdp" ""] := by
  decide

/-! ## Answer submission -/

theorem patchAnswer_204 (lib : Lib) (w : World)
    (huri : lib.soup_message_new (cstr w.data.location) = true) :
    patchAnswer lib 204 w =
      { w with trace := w.trace ++ [.callPatchAnswer w.data.location w.data.sdpAnswer,
          .soupSend "PATCH" (cstr w.data.location) "application/sdp" (cstr w.data.sdpAnswer)] } := by
  unfold patchAnswer World.log
  simp [huri, cstr_cstr]

/-- C6 (code at the failing input): the PATCH is answered 403.  patchAnswer
has released msg before it tests the status, and the diagnostic of the
failure branch reads msg->response_body->data: the run ends in undefined
behaviour, not in exit code 1.  With status 204 the same call returns and
the process keeps running. -/
theorem patchAnswer_403_reads_released_message :
    (patchAnswer sampleLib 403 sampleStart).proc = .undefinedBehaviour
    ∧ (main sampleLib (negotiationEnv 403)).proc = .undefinedBehaviour
    ∧ (main sampleLib (negotiationEnv 403)).trace =
        (main sampleLib (negotiationEnv 204)).trace
    ∧ (patchAnswer sampleLib 204 sampleStart).proc = .running
    ∧ (main sampleLib (negotiationEnv 204)).proc = .running := by
  decide

/-! ## Negotiation steps -/

theorem handleSDPs_rejected (lib : Lib) (w : World) (x : GstElement)
    (hsrc : w.data.webrtc_source = some x)
    (hrej : (lib.sdp_message_new_from_text (cstr w.data.sdpOffer)).ok = false) :
    (handleSDPs lib w).proc = w.proc
    ∧ (handleSDPs lib w).data = w.data
    ∧ Action.print "Unable to create SDP object from offer\n" ∈ (handleSDPs lib w).trace
    ∧ Action.emitSetRemoteDescription
        (gst_webrtc_session_description_new .offer
          (lib.sdp_message_new_from_text (cstr w.data.sdpOffer)).message)
        w.nextPromise ∈ (handleSDPs lib w).trace
    ∧ (w.nextPromise, ChangeFunc.onRemoteDescSetCallback) ∈ (handleSDPs lib w).promises := by
  unfold handleSDPs World.emitWithPromise World.log
  simp only [hrej, Bool.not_false, if_true]
  cases hd : (gst_webrtc_session_description_new .offer
      (lib.sdp_message_new_from_text (cstr w.data.sdpOffer)).message) <;>
    simp [hsrc]

/-- C7 (code at the failing input): the stored offer is a text the parser
rejects.  Whatever the library and the world, when the result of the parser
is not GST_SDP_OK and the engine element exists, handleSDPs prints its
diagnostic and goes on: the process status and CustomData are unchanged, and
it emits set-remote-description, with the description built from whatever
message the parser left behind, and hands the promise to the engine.  In the
run with the empty offer body the trace shows the diagnostic, the
set-remote-description request and, after the reply of the engine, the
create-answer request. -/
theorem handleSDPs_proceeds_on_rejected_offer :
    (∀ (lib : Lib) (w : World) (x : GstElement),
      w.data.webrtc_source = some x →
      (lib.sdp_message_new_from_text (cstr w.data.sdpOffer)).ok = false →
      (handleSDPs lib w).proc = w.proc
      ∧ (handleSDPs lib w).data = w.data
      ∧ Action.print "Unable to create SDP object from offer\n" ∈ (handleSDPs lib w).trace
      ∧ Action.emitSetRemoteDescription
          (gst_webrtc_session_description_new .offer
            (lib.sdp_message_new_from_text (cstr w.data.sdpOffer)).message)
          w.nextPromise ∈ (handleSDPs lib w).trace
      ∧ (w.nextPromise, ChangeFunc.onRemoteDescSetCallback) ∈ (handleSDPs lib w).promises)
    ∧ (sampleLib.sdp_message_new_from_text
        (cstr (main sampleLib badOfferEnv).data.sdpOffer)).ok = false
    ∧ (main sampleLib badOfferEnv).proc = .running
    ∧ (main sampleLib badOfferEnv).trace =
        [.soupSend "POST" "http://example/whep" "application/sdp" "",
         .print "Start playing...\n",
         .print "Looping...\n",
         .print "Unable to create SDP object from offer\n",
         .emitSetRemoteDescription (some ⟨.offer, some ⟨0⟩⟩) 0,
         .promiseWait 0 .replied,
         .emitCreateAnswer 1] :=
  ⟨handleSDPs_rejected, by decide, by decide, by decide⟩

/-- C8 (code at the failing input): the create-answer promise is replied with
an answer that has no SDP.  onAnswerCreatedCallback prints its diagnostic and
goes on: it emits set-local-description with that answer, then assigns the
null text to sdpAnswer, which is undefined behaviour.  When the reply has no
answer field at all, the callback dereferences the null answer pointer right
after reading the reply. -/
theorem onAnswerCreatedCallback_proceeds_without_sdp :
    (main sampleLib noAnswerEnv).proc = .undefinedBehaviour
    ∧ (main sampleLib noSdpAnswerEnv).proc = .undefinedBehaviour
    ∧ (main sampleLib noSdpAnswerEnv).trace =
        [.soupSend "POST" "http://example/whep" "application/sdp" "",
         .print "Start playing...\n",
         .print "Looping...\n",
         .emitSetRemoteDescription (some ⟨.offer, some ⟨1⟩⟩) 0,
         .promiseWait 0 .replied,
         .emitCreateAnswer 1,
         .promiseWait 1 .replied,
         .print "ERROR: No answer sdp!\n",
         .emitSetLocalDescription ⟨.answer, none⟩] := by
  decide

/-- C9: when gst_promise_wait gives a result other than replied, the change
function leaves the process with exit code 1 after its diagnostic.
onRemoteDescSetCallback emits no create-answer; onAnswerCreatedCallback emits
no set-local-description and does not call patchAnswer.  In both cases the
CustomData fields (sdpOffer, sdpAnswer, location, whepURL) and the promises
held by the engine are unchanged, and no later event is dispatched. -/
theorem promise_not_replied_is_fatal (lib : Lib) (w : World) (p : Nat)
    (r : GstPromiseResult) (reply : Option GstStructure) (st : Nat)
    (h : r ≠ .replied) :
    onRemoteDescSetCallback p r w =
        { w with proc := .exited 1,
                 trace := w.trace ++ [.promiseWait p r,
                   .print "onRemoteDescSetCallback: Failed to receive promise reply\n"] }
    ∧ onAnswerCreatedCallback lib p r reply st w =
        { w with proc := .exited 1,
                 trace := w.trace ++ [.promiseWait p r,
                   .print "onAnswerCreatedCallback: Failed to receive promise reply\n"] }
    ∧ (∀ evs, mainLoop lib evs (onRemoteDescSetCallback p r w) = onRemoteDescSetCallback p r w)
    ∧ (∀ evs, mainLoop lib evs (onAnswerCreatedCallback lib p r reply st w)
          = onAnswerCreatedCallback lib p r reply st w) := by
  have h1 : onRemoteDescSetCallback p r w =
        { w with proc := .exited 1,
                 trace := w.trace ++ [.promiseWait p r,
                   .print "onRemoteDescSetCallback: Failed to receive promise reply\n"] } := by
    unfold onRemoteDescSetCallback World.log World.terminate
    simp [h]
  have h2 : onAnswerCreatedCallback lib p r reply st w =
        { w with proc := .exited 1,
                 trace := w.trace ++ [.promiseWait p r,
                   .print "onAnswerCreatedCallback: Failed to receive promise reply\n"] } := by
    unfold onAnswerCreatedCallback World.log World.terminate
    simp [h]
  refine ⟨h1, h2, fun evs => ?_, fun evs => ?_⟩
  · rw [h1]
    exact mainLoop_stopped lib evs _ (by simp)
  · rw [h2]
    exact mainLoop_stopped lib evs _ (by simp)

theorem promise_not_replied_is_fatal_witness :
    (onRemoteDescSetCallback 0 .expired sampleStart).proc = .exited 1
    ∧ (onAnswerCreatedCallback sampleLib 1 .interrupted none 204 sampleStart).proc = .exited 1 :=
  have h := promise_not_replied_is_fatal sampleLib sampleStart
  ⟨by rw [(h 0 .expired none 0 (by decide)).1],
   by rw [(promise_not_replied_is_fatal sampleLib sampleStart 1 .interrupted none 204
      (by decide)).2.1]⟩

/-! ## Pipeline controller -/

theorem gst_element_link_many_complete (l : Links) (c : Caps)
    (h : (gst_element_link_many l c).1 = true) :
    (gst_element_link_many l c).2.complete = true := by
  rcases l with ⟨a, b, d⟩
  rcases c with ⟨x, y, z⟩
  revert h
  cases a <;> cases b <;> cases d <;> cases x <;> cases y <;> cases z <;> decide

theorem gst_element_link_many_of_complete (l : Links) (c : Caps)
    (h : l.complete = true) : gst_element_link_many l c = (false, l) := by
  rcases l with ⟨a, b, d⟩
  rcases c with ⟨x, y, z⟩
  revert h
  cases a <;> cases b <;> cases d <;> cases x <;> cases y <;> cases z <;> decide

theorem padAddedHandler_of_complete (pad : String) (c : Caps) (w : World)
    (h : w.links.complete = true) :
    padAddedHandler pad c w =
      { w with trace := w.trace ++
          [.printPad pad, .print "Failed to link source to sink\n"] } := by
  unfold padAddedHandler World.log
  simp [gst_element_link_many_of_complete w.links c h]

theorem handleSDPs_links (lib : Lib) (w : World) : (handleSDPs lib w).links = w.links := by
  unfold handleSDPs World.emitWithPromise World.log
  simp only
  repeat' split
  all_goals rfl

theorem onRemoteDescSetCallback_links (p : Nat) (r : GstPromiseResult) (w : World) :
    (onRemoteDescSetCallback p r w).links = w.links := by
  unfold onRemoteDescSetCallback World.emitWithPromise World.log World.terminate
  simp only
  repeat' split
  all_goals rfl

theorem patchAnswer_links (lib : Lib) (st : Nat) (w : World) :
    (patchAnswer lib st w).links = w.links := by
  unfold patchAnswer World.log World.terminate World.undefined
  simp only
  repeat' split
  all_goals rfl

theorem onAnswerCreatedCallback_links (lib : Lib) (p : Nat) (r : GstPromiseResult)
    (reply : Option GstStructure) (st : Nat) (w : World) :
    (onAnswerCreatedCallback lib p r reply st w).links = w.links := by
  unfold onAnswerCreatedCallback
  simp only
  split
  · rfl
  · split
    · rfl
    · split
      · unfold World.emit World.log World.undefined
        repeat' split
        all_goals rfl
      · rw [patchAnswer_links]
        unfold World.emit World.log
        repeat' split
        all_goals rfl

theorem dispatch_complete (lib : Lib) (e : Event) (w : World)
    (h : w.links.complete = true) : (dispatch lib e w).links.complete = true := by
  cases e with
  | negotiationNeeded =>
    show (handleSDPs lib w).links.complete = true
    rw [handleSDPs_links]
    exact h
  | padAdded pad caps =>
    show (padAddedHandler pad caps w).links.complete = true
    rw [padAddedHandler_of_complete pad caps w h]
    exact h
  | promiseChange p r reply st =>
    unfold dispatch
    simp only
    split
    · exact h
    · split
      · rw [onRemoteDescSetCallback_links]
        exact h
      · rw [onAnswerCreatedCallback_links]
        exact h
  | interrupt => exact h

theorem mainLoop_complete (lib : Lib) (evs : List Event) (w : World)
    (h : w.links.complete = true) : (mainLoop lib evs w).links.complete = true := by
  induction evs generalizing w with
  | nil => exact h
  | cons e rest ih =>
    unfold mainLoop
    split
    · cases e with
      | interrupt => exact h
      | negotiationNeeded => exact ih _ (dispatch_complete lib _ w h)
      | padAdded pad caps => exact ih _ (dispatch_complete lib _ w h)
      | promiseChange p r reply st => exact ih _ (dispatch_complete lib _ w h)
    · exact h

/-- C10: once a pad-added notification has linked the chain source ->
depacketizer -> decoder -> renderer, a later call of padAddedHandler, after
any events the loop dispatched in between, cannot link again: it prints
Failed to link source to sink (it is neither silent nor a second link) and
changes nothing else.  sdpOffer, sdpAnswer, location and whepURL keep their
values, the links stay as they were, no promise is created and no signal is
emitted on the engine. -/
theorem second_pad_is_link_error (lib : Lib) (w0 : World) (pad1 pad2 : String)
    (c1 c2 : Caps) (evs : List Event)
    (hfirst : (gst_element_link_many w0.links c1).1 = true) :
    padAddedHandler pad1 c1 w0 =
        { w0 with trace := w0.trace ++ [.printPad pad1],
                  links := ⟨true, true, true⟩ }
    ∧ padAddedHandler pad2 c2 (mainLoop lib evs (padAddedHandler pad1 c1 w0)) =
        { mainLoop lib evs (padAddedHandler pad1 c1 w0) with
          trace := (mainLoop lib evs (padAddedHandler pad1 c1 w0)).trace ++
            [.printPad pad2, .print "Failed to link source to sink\n"] }
    ∧ (padAddedHandler pad2 c2 (mainLoop lib evs (padAddedHandler pad1 c1 w0))).negotiation
        = (mainLoop lib evs (padAddedHandler pad1 c1 w0)).negotiation := by
  have hfirst : (gst_element_link_many (w0.log (.printPad pad1)).links c1).1 = true := hfirst
  have hc := gst_element_link_many_complete _ c1 hfirst
  have h1 : padAddedHandler pad1 c1 w0 =
        { w0 with trace := w0.trace ++ [.printPad pad1],
                  links := ⟨true, true, true⟩ } := by
    have hl : (gst_element_link_many (w0.log (.printPad pad1)).links c1).2 = ⟨true, true, true⟩ := by
      revert hc
      generalize (gst_element_link_many (w0.log (.printPad pad1)).links c1).2 = l
      rcases l with ⟨a, b, d⟩
      cases a <;> cases b <;> cases d <;> decide
    unfold padAddedHandler
    simp only [hfirst, hl]
    rfl
  have hcomplete : (mainLoop lib evs (padAddedHandler pad1 c1 w0)).links.complete = true := by
    apply mainLoop_complete
    rw [h1]
    rfl
  refine ⟨h1, padAddedHandler_of_complete pad2 c2 _ hcomplete, ?_⟩
  rw [padAddedHandler_of_complete pad2 c2 _ hcomplete]
  rfl

theorem second_pad_is_link_error_witness :
    (padAddedHandler "src_1" ⟨true, true, true⟩
        (mainLoop sampleLib (negotiationEvents 204)
          (padAddedHandler "src_0" ⟨true, true, true⟩ sampleStart))).trace
      = (mainLoop sampleLib (negotiationEvents 204)
          (padAddedHandler "src_0" ⟨true, true, true⟩ sampleStart)).trace ++
            [.printPad "src_1", .print "Failed to link source to sink\n"] :=
  have h := second_pad_is_link_error sampleLib sampleStart "src_0" "src_1"
    ⟨true, true, true⟩ ⟨true, true, true⟩ (negotiationEvents 204) (by decide)
  congrArg World.trace h.2.1

/-! ## Order of the negotiation steps -/

theorem Guarded.empty (Q : Action → Prop) (P : List Action → Prop) : Guarded Q P [] := by
  intro pre a post h
  cases pre <;> cases h

theorem Guarded.append_one {Q : Action → Prop} {P : List Action → Prop} {tr : List Action}
    {a : Action} (h : Guarded Q P tr) (ha : Q a → P tr) : Guarded Q P (tr ++ [a]) := by
  intro pre b post heq hb
  rcases List.eq_nil_or_concat post with hp | ⟨post1, c, hp⟩
  · subst hp
    have h2 : tr ++ [a] = pre ++ [b] := heq
    obtain ⟨h3, h4⟩ := List.append_inj' h2 rfl
    have h5 : a = b := by simpa using h4
    subst h3 h5
    exact ha hb
  · subst hp
    have h2 : tr ++ [a] = (pre ++ b :: post1) ++ [c] := by
      rw [heq]; simp
    obtain ⟨h3, _⟩ := List.append_inj' h2 rfl
    exact h pre b post1 h3 hb

theorem TraceOk.same {w w1 : World} (h : TraceOk w) (ht : w1.trace = w.trace)
    (hp : w1.promises = w.promises) : TraceOk w1 := by
  unfold TraceOk at *
  rw [ht, hp]
  exact h

theorem TraceOk.step {w : World} (h : TraceOk w) (a : Action)
    (h1 : a.isCreateAnswer = false) (h2 : a.isPatch = false) : TraceOk (w.log a) := by
  obtain ⟨ha, hb, hc⟩ := h
  refine ⟨Guarded.append_one ha (fun hq => ?_), Guarded.append_one hb (fun hq => ?_), ?_⟩
  · rw [h1] at hq; cases hq
  · rw [h2] at hq; cases hq
  · intro q hq
    obtain ⟨d, hd⟩ := hc q hq
    exact ⟨d, List.mem_append_left _ hd⟩

theorem TraceOk.stepIf {w : World} (h : TraceOk w) (c : Bool) (a : Action)
    (h1 : a.isCreateAnswer = false) (h2 : a.isPatch = false) :
    TraceOk (if c = true then w.log a else w) := by
  cases c
  · exact h
  · exact h.step a h1 h2

theorem TraceOk.terminate {w : World} (h : TraceOk w) (n : Nat) : TraceOk (w.terminate n) :=
  h.same rfl rfl

theorem TraceOk.undefined {w : World} (h : TraceOk w) : TraceOk w.undefined :=
  h.same rfl rfl

theorem TraceOk.emit {w : World} (h : TraceOk w) (a : Action)
    (h1 : a.isCreateAnswer = false) (h2 : a.isPatch = false) : TraceOk (w.emit a) := by
  unfold World.emit
  split
  · exact h
  · exact h.step a h1 h2

theorem TraceOk.logPatch {w : World} (h : TraceOk w) (a : Action)
    (hl : LocalRequested w.trace) (h1 : a.isCreateAnswer = false) :
    TraceOk (w.log a) := by
  obtain ⟨ha, hb, hc⟩ := h
  refine ⟨Guarded.append_one ha (fun hq => ?_), Guarded.append_one hb (fun _ => hl), ?_⟩
  · rw [h1] at hq; cases hq
  · intro q hq
    obtain ⟨d, hd⟩ := hc q hq
    exact ⟨d, List.mem_append_left _ hd⟩

theorem TraceOk.emitRemote {w : World} (h : TraceOk w) (d : Option GstWebRTCSessionDescription)
    (p : Nat) :
    TraceOk (w.emitWithPromise (.emitSetRemoteDescription d p) p .onRemoteDescSetCallback) := by
  unfold World.emitWithPromise
  split
  · exact h
  · obtain ⟨ha, hb, hc⟩ := h
    refine ⟨Guarded.append_one ha (fun hq => ?_), Guarded.append_one hb (fun hq => ?_), ?_⟩
    · cases hq
    · cases hq
    · intro q hq
      rcases List.mem_append.mp hq with hq | hq
      · obtain ⟨d1, hd⟩ := hc q hq
        exact ⟨d1, List.mem_append_left _ hd⟩
      · have hqp : q = p := by simpa using hq
        subst hqp
        exact ⟨d, List.mem_append_right _ (List.mem_singleton.mpr rfl)⟩

theorem TraceOk.emitCreateAnswer {w : World} (h : TraceOk w) (n : Nat)
    (hr : RemoteReplied w.trace) :
    TraceOk (w.emitWithPromise (.emitCreateAnswer n) n .onAnswerCreatedCallback) := by
  unfold World.emitWithPromise
  split
  · exact h
  · obtain ⟨ha, hb, hc⟩ := h
    refine ⟨Guarded.append_one ha (fun _ => hr), Guarded.append_one hb (fun hq => ?_), ?_⟩
    · cases hq
    · intro q hq
      rcases List.mem_append.mp hq with hq | hq
      · obtain ⟨d1, hd⟩ := hc q hq
        exact ⟨d1, List.mem_append_left _ hd⟩
      · simp at hq

theorem handleSDPs_ok (lib : Lib) (w : World) (h : TraceOk w) : TraceOk (handleSDPs lib w) := by
  have h1 := h.stepIf (!(lib.sdp_message_new_from_text (cstr w.data.sdpOffer)).ok)
    (.print "Unable to create SDP object from offer\n") rfl rfl
  have h2 := h1.stepIf
    (gst_webrtc_session_description_new .offer
      (lib.sdp_message_new_from_text (cstr w.data.sdpOffer)).message).isNone
    (.print "Unable to create SDP object from offer msg\n") rfl rfl
  unfold handleSDPs
  simp only
  generalize (if (gst_webrtc_session_description_new .offer
      (lib.sdp_message_new_from_text (cstr w.data.sdpOffer)).message).isNone = true then _ else _) = w2 at h2 ⊢
  have h3 : TraceOk { w2 with nextPromise := w2.nextPromise + 1 } := h2.same rfl rfl
  exact (h3.stepIf _ (.print "webrtc_source is NULL\n") rfl rfl).emitRemote _ _

theorem padAddedHandler_ok (pad : String) (c : Caps) (w : World) (h : TraceOk w) :
    TraceOk (padAddedHandler pad c w) := by
  have h1 : TraceOk { w.log (.printPad pad) with
      links := (gst_element_link_many (w.log (.printPad pad)).links c).2 } :=
    (h.step (.printPad pad) rfl rfl).same rfl rfl
  exact h1.stepIf _ (.print "Failed to link source to sink\n") rfl rfl

theorem onRemoteDescSetCallback_ok (p : Nat) (r : GstPromiseResult) (w : World)
    (h : TraceOk w) (hreq : ∃ d, Action.emitSetRemoteDescription d p ∈ w.trace) :
    TraceOk (onRemoteDescSetCallback p r w) := by
  unfold onRemoteDescSetCallback
  simp only
  split
  · exact ((h.step (.promiseWait p r) rfl rfl).step
      (.print "onRemoteDescSetCallback: Failed to receive promise reply\n") rfl rfl).terminate 1
  · rename_i hr
    have hr : r = .replied := by simpa using hr
    subst hr
    have h1 : TraceOk { w.log (.promiseWait p .replied) with
        nextPromise := (w.log (.promiseWait p .replied)).nextPromise + 1 } :=
      (h.step (.promiseWait p .replied) rfl rfl).same rfl rfl
    refine h1.emitCreateAnswer _ ?_
    obtain ⟨d, hd⟩ := hreq
    refine ⟨d, p, ?_⟩
    have hs : [Action.emitSetRemoteDescription d p].Sublist w.trace :=
      List.singleton_sublist.mpr hd
    exact hs.append (List.Sublist.refl [Action.promiseWait p .replied])

theorem patchAnswer_ok (lib : Lib) (st : Nat) (w : World) (h : TraceOk w)
    (hl : LocalRequested w.trace) : TraceOk (patchAnswer lib st w) := by
  have h1 : TraceOk (w.log (.callPatchAnswer w.data.location w.data.sdpAnswer)) :=
    h.logPatch _ hl rfl
  have hl1 : LocalRequested (w.log (.callPatchAnswer w.data.location w.data.sdpAnswer)).trace := by
    obtain ⟨d, hd⟩ := hl
    exact ⟨d, List.mem_append_left _ hd⟩
  unfold patchAnswer
  simp only
  have h2 := h1.logPatch (.soupSend "PATCH"
    (cstr (w.log (.callPatchAnswer w.data.location w.data.sdpAnswer)).data.location)
    "application/sdp"
    (cstr (cstr (w.log (.callPatchAnswer w.data.location w.data.sdpAnswer)).data.sdpAnswer)))
    hl1 rfl
  split
  · exact (h1.step (.print "ERROR: when creating msg in patchAnswer()\n") rfl rfl).terminate 1
  · split
    · exact h2.undefined
    · exact h2

theorem onAnswerCreatedCallback_ok (lib : Lib) (p : Nat) (r : GstPromiseResult)
    (reply : Option GstStructure) (st : Nat) (w : World) (h : TraceOk w)
    (hsrc : w.data.webrtc_source.isSome = true) :
    TraceOk (onAnswerCreatedCallback lib p r reply st w) := by
  unfold onAnswerCreatedCallback
  simp only
  split
  · exact ((h.step (.promiseWait p r) rfl rfl).step
      (.print "onAnswerCreatedCallback: Failed to receive promise reply\n") rfl rfl).terminate 1
  · have h0 := h.step (.promiseWait p r) rfl rfl
    split
    · exact h0.undefined
    · rename_i answerPointer _
      have h1 := h0.stepIf answerPointer.sdp.isNone (.print "ERROR: No answer sdp!\n") rfl rfl
      have h2 := h1.emit (.emitSetLocalDescription answerPointer) rfl rfl
      split
      · exact h2.undefined
      · refine patchAnswer_ok lib st _ (h2.same rfl rfl) ?_
        refine ⟨answerPointer, ?_⟩
        show Action.emitSetLocalDescription answerPointer ∈
          ((if answerPointer.sdp.isNone = true then
            (w.log (.promiseWait p r)).log (.print "ERROR: No answer sdp!\n")
            else w.log (.promiseWait p r)).emit (.emitSetLocalDescription answerPointer)).trace
        have hs : ∀ v : World, v.data.webrtc_source = w.data.webrtc_source →
            Action.emitSetLocalDescription answerPointer ∈
              (v.emit (.emitSetLocalDescription answerPointer)).trace := by
          intro v hv
          unfold World.emit
          rw [hv]
          cases hw : w.data.webrtc_source with
          | none => rw [hw] at hsrc; cases hsrc
          | some x => simp [World.log]
        apply hs
        split <;> rfl

theorem lookupPromise_mem (ps : List (Nat × ChangeFunc)) (p : Nat) (f : ChangeFunc)
    (h : lookupPromise ps p = some f) : (p, f) ∈ ps := by
  induction ps with
  | nil => cases h
  | cons x rest ih =>
    rcases x with ⟨q, g⟩
    unfold lookupPromise at h
    split at h
    · rename_i hq
      cases h
      subst hq
      exact List.mem_cons_self _ _
    · exact List.mem_cons_of_mem _ (ih h)

theorem TraceOk.release {w : World} (h : TraceOk w) (p : Nat) :
    TraceOk { w with promises := w.promises.filter (fun q => q.1 != p) } := by
  obtain ⟨ha, hb, hc⟩ := h
  exact ⟨ha, hb, fun q hq => hc q (List.mem_of_mem_filter hq)⟩

theorem onAnswerCreatedCallback_source (lib : Lib) (p : Nat) (r : GstPromiseResult)
    (reply : Option GstStructure) (st : Nat) (w : World) :
    (onAnswerCreatedCallback lib p r reply st w).data.webrtc_source = w.data.webrtc_source := by
  unfold onAnswerCreatedCallback
  simp only
  split
  · rfl
  · split
    · rfl
    · split
      · unfold World.emit World.log World.undefined
        repeat' split
        all_goals rfl
      · rw [patchAnswer_data]
        unfold World.emit World.log
        repeat' split
        all_goals rfl

theorem dispatch_source (lib : Lib) (e : Event) (w : World) :
    (dispatch lib e w).data.webrtc_source = w.data.webrtc_source := by
  cases e with
  | negotiationNeeded =>
    show (handleSDPs lib w).data.webrtc_source = w.data.webrtc_source
    rw [handleSDPs_data]
  | padAdded pad caps =>
    show (padAddedHandler pad caps w).data.webrtc_source = w.data.webrtc_source
    rw [padAddedHandler_data]
  | promiseChange p r reply st =>
    unfold dispatch
    simp only
    split
    · rfl
    · split
      · rw [onRemoteDescSetCallback_data]
      · rw [onAnswerCreatedCallback_source]
  | interrupt => rfl

theorem dispatch_ok (lib : Lib) (e : Event) (w : World) (h : TraceOk w)
    (hsrc : w.data.webrtc_source.isSome = true) : TraceOk (dispatch lib e w) := by
  cases e with
  | negotiationNeeded => exact handleSDPs_ok lib w h
  | padAdded pad caps => exact padAddedHandler_ok pad caps w h
  | promiseChange p r reply st =>
    unfold dispatch
    simp only
    split
    · exact h
    · rename_i f hf
      split
      · exact onRemoteDescSetCallback_ok p r _ (h.release p)
          (h.2.2 p (lookupPromise_mem _ _ _ hf))
      · exact onAnswerCreatedCallback_ok lib p r reply st _ (h.release p) hsrc
  | interrupt => exact h

theorem mainLoop_ok (lib : Lib) (evs : List Event) (w : World) (h : TraceOk w)
    (hsrc : w.data.webrtc_source.isSome = true) : TraceOk (mainLoop lib evs w) := by
  induction evs generalizing w with
  | nil => exact h
  | cons e rest ih =>
    unfold mainLoop
    split
    · cases e with
      | interrupt => exact ((h.step (.print "\nDestructing resources...\n") rfl rfl).terminate 0)
      | negotiationNeeded =>
        exact ih _ (dispatch_ok lib _ w h hsrc) (by rw [dispatch_source]; exact hsrc)
      | padAdded pad caps =>
        exact ih _ (dispatch_ok lib _ w h hsrc) (by rw [dispatch_source]; exact hsrc)
      | promiseChange p r reply st =>
        exact ih _ (dispatch_ok lib _ w h hsrc) (by rw [dispatch_source]; exact hsrc)
    · exact h

theorem mainSetup_ok (s : Setup) (w : World) (h : TraceOk w) :
    TraceOk (mainSetup s w)
    ∧ ((mainSetup s w).proc = .running → (mainSetup s w).data.webrtc_source.isSome = true) := by
  have fail : ∀ (v : World) (t : String), v.trace = w.trace → v.promises = w.promises →
      TraceOk (setupFail t v) := fun v t ht hp =>
    (((h.same ht hp).step (.print t) rfl rfl).step
      (.print "\nDestructing resources...\n") rfl rfl).terminate 1
  rcases s with ⟨a, b, c, d, e, f, g, h1, i, j⟩
  cases a
  · exact ⟨fail _ _ rfl rfl, fun hp => Proc.noConfusion hp⟩
  cases b
  · exact ⟨fail _ _ rfl rfl, fun hp => Proc.noConfusion hp⟩
  cases c
  · exact ⟨fail _ _ rfl rfl, fun hp => Proc.noConfusion hp⟩
  cases d
  · exact ⟨fail _ _ rfl rfl, fun hp => Proc.noConfusion hp⟩
  cases e
  · exact ⟨fail _ _ rfl rfl, fun hp => Proc.noConfusion hp⟩
  cases f
  · exact ⟨fail _ _ rfl rfl, fun hp => Proc.noConfusion hp⟩
  cases g
  · exact ⟨fail _ _ rfl rfl, fun hp => Proc.noConfusion hp⟩
  cases h1
  · exact ⟨fail _ _ rfl rfl, fun hp => Proc.noConfusion hp⟩
  cases i
  · exact ⟨fail _ _ rfl rfl, fun hp => Proc.noConfusion hp⟩
  have hstart : ∀ v : World, v.trace = w.trace → v.promises = w.promises →
      TraceOk (v.log (.print "Start playing...\n")) := fun v ht hp =>
    (h.same ht hp).step _ rfl rfl
  cases j
  · exact ⟨(((hstart _ rfl rfl).step
        (.print "Unable to set the pipeline to the playing state\n") rfl rfl).step
        (.print "\nDestructing resources...\n") rfl rfl).terminate 1,
      fun hp => Proc.noConfusion hp⟩
  · exact ⟨(hstart _ rfl rfl).step (.print "Looping...\n") rfl rfl, fun _ => rfl⟩

theorem mainFetch_ok (lib : Lib) (env : Env) : TraceOk (mainFetch lib env) := by
  have h0 : TraceOk ({} : World) :=
    ⟨Guarded.empty _ _, Guarded.empty _ _, fun q hq => by cases hq⟩
  unfold mainFetch
  simp only
  split
  · exact ((h0.step (.print
      "Usage: GST_PLUGIN_PATH=my/plugin/path/gstreamer-1.0 ./whep-play WHEP-URL\n") rfl rfl).step
      (.print "\nDestructing resources...\n") rfl rfl).terminate 1
  · have h1 : TraceOk { data := { whepURL := cstr (env.argv.getD 1 "") } } := h0.same rfl rfl
    have hg : ∀ v : World, TraceOk v → TraceOk (getPostOffer lib env.post v).2 := by
      intro v hv
      unfold getPostOffer
      simp only
      split
      · exact (hv.step (.print "ERROR: NULL msg in getPostOffer()\n") rfl rfl).terminate 1
      · have hp := hv.step (.soupSend "POST" (cstr v.data.whepURL) "application/sdp" "") rfl rfl
        split
        · exact (hp.step (.printStatus env.post.status (cstr env.post.body)) rfl rfl).terminate 1
        · split
          · exact hp.undefined
          · exact hp
    have h2 := hg _ h1
    split
    · rename_i v hv
      rw [hv] at h2
      exact h2
    · rename_i off v hv
      rw [hv] at h2
      exact h2.same rfl rfl

/-- C1: in every run of main, whatever the HTTP responses, the outcome of the
set-up calls and the events of the engine, every create-answer request comes
after a set-remote-description request and the reading of a reply on the
promise of that very request, and the call of patchAnswer, as well as the
PATCH request it sends, comes after a set-local-description request. -/
theorem negotiation_steps_in_order (lib : Lib) (env : Env) :
    (∀ pre n post, (main lib env).trace = pre ++ Action.emitCreateAnswer n :: post →
      ∃ d q, [Action.emitSetRemoteDescription d q, Action.promiseWait q .replied].Sublist pre)
    ∧ (∀ pre loc sdp post,
        (main lib env).trace = pre ++ Action.callPatchAnswer loc sdp :: post →
        ∃ d, Action.emitSetLocalDescription d ∈ pre)
    ∧ (∀ pre url ct body post,
        (main lib env).trace = pre ++ Action.soupSend "PATCH" url ct body :: post →
        ∃ d, Action.emitSetLocalDescription d ∈ pre) := by
  have hmain : TraceOk (main lib env) := by
    have hf := mainFetch_ok lib env
    unfold main
    simp only
    split
    · have hs := mainSetup_ok env.setup _ hf
      split
      · rename_i hrun
        exact mainLoop_ok lib _ _ hs.1 (hs.2 hrun)
      · exact hs.1
    · exact hf
  obtain ⟨ha, hb, _⟩ := hmain
  exact ⟨fun pre n post h => ha pre _ post h rfl,
    fun pre loc sdp post h => hb pre _ post h rfl,
    fun pre url ct body post h => hb pre _ post h rfl⟩

theorem negotiation_steps_in_order_witness :
    ∃ d q, [Action.emitSetRemoteDescription d q, Action.promiseWait q .replied].Sublist
      [Action.soupSend "POST" "http://example/whep" "application/sdp" "",
       Action.print "Start playing...\n",
       Action.print "Looping...\n",
       Action.emitSetRemoteDescription (some ⟨.offer, some ⟨1⟩⟩) 0,
       Action.promiseWait 0 .replied] :=
  (negotiation_steps_in_order sampleLib (negotiationEnv 204)).1 _ 1
    [Action.promiseWait 1 .replied,
     Action.emitSetLocalDescription sampleAnswer,
     Action.callPatchAnswer "http://example/whep/session/42" "v=0\r\na=recvonly\r\n",
     Action.soupSend "PATCH" "http://example/whep/session/42" "application/sdp"
       "v=0\r\na=recvonly\r\n"]
    (by decide)

/-! ## The answer is submitted once -/

theorem NoPatch.append {t1 t2 : List Action} (h1 : NoPatch t1) (h2 : NoPatch t2) :
    NoPatch (t1 ++ t2) := by
  intro a ha
  rcases List.mem_append.mp ha with h | h
  · exact h1 a h
  · exact h2 a h

theorem NoPatch.nil : NoPatch [] := by
  intro a ha
  cases ha

theorem NoPatch.one (a : Action) (h : a.isPatch = false) : NoPatch [a] := by
  intro b hb
  rw [List.mem_singleton.mp hb]
  exact h

theorem Stage.quiet {L : String} {ps : List (Nat × ChangeFunc)} {n : Nat} {w : World}
    (h : Stage L ps n w) (a : Action) (ha : a.isPatch = false) : Stage L ps n (w.log a) := by
  obtain ⟨h1, h2, h3, h4, h5, h6⟩ := h
  exact ⟨h1, h2, h3, h4, h5, h6.append (NoPatch.one a ha)⟩

theorem Stage.quietIf {L : String} {ps : List (Nat × ChangeFunc)} {n : Nat} {w : World}
    (h : Stage L ps n w) (c : Bool) (a : Action) (ha : a.isPatch = false) :
    Stage L ps n (if c = true then w.log a else w) := by
  cases c
  · exact h
  · exact h.quiet a ha

theorem padAddedHandler_stage {L : String} {ps : List (Nat × ChangeFunc)} {n : Nat}
    {w : World} (pad : String) (c : Caps) (h : Stage L ps n w) :
    Stage L ps n (padAddedHandler pad c w) := by
  have h1 : Stage L ps n { w.log (.printPad pad) with
      links := (gst_element_link_many (w.log (.printPad pad)).links c).2 } := by
    obtain ⟨h1, h2, h3, h4, h5, h6⟩ := h.quiet (.printPad pad) rfl
    exact ⟨h1, h2, h3, h4, h5, h6⟩
  exact h1.quietIf _ (.print "Failed to link source to sink\n") rfl

theorem mainLoop_running (lib : Lib) (e : Event) (evs : List Event) (w : World)
    (hrun : w.proc = .running) (he : e ≠ .interrupt) :
    mainLoop lib (e :: evs) w = mainLoop lib evs (dispatch lib e w) := by
  cases e with
  | interrupt => exact absurd rfl he
  | negotiationNeeded => simp only [mainLoop, hrun]
  | padAdded pad caps => simp only [mainLoop, hrun]
  | promiseChange p r reply st => simp only [mainLoop, hrun]

theorem mainLoop_pads (lib : Lib) {L : String} {ps : List (Nat × ChangeFunc)} {n : Nat}
    (pads evs : List Event) (w : World) (hp : ∀ e ∈ pads, e.isPad = true)
    (h : Stage L ps n w) :
    ∃ w1, mainLoop lib (pads ++ evs) w = mainLoop lib evs w1 ∧ Stage L ps n w1 := by
  induction pads generalizing w with
  | nil => exact ⟨w, rfl, h⟩
  | cons e rest ih =>
    have he := hp e (List.mem_cons_self _ _)
    cases e with
    | padAdded pad caps =>
      obtain ⟨w1, h1, h2⟩ := ih (padAddedHandler pad caps w)
        (fun x hx => hp x (List.mem_cons_of_mem _ hx)) (padAddedHandler_stage pad caps h)
      refine ⟨w1, ?_, h2⟩
      rw [List.cons_append, mainLoop_running lib _ _ w h.1 (by simp)]
      exact h1
    | negotiationNeeded => cases he
    | promiseChange p r reply st => cases he
    | interrupt => cases he

theorem handleSDPs_stage (lib : Lib) {L : String} {n : Nat} {w : World}
    (h : Stage L [] n w) :
    Stage L [(n, .onRemoteDescSetCallback)] (n + 1) (handleSDPs lib w) := by
  have h1 := h.quietIf (!(lib.sdp_message_new_from_text (cstr w.data.sdpOffer)).ok)
    (.print "Unable to create SDP object from offer\n") rfl
  have h2 := h1.quietIf
    (gst_webrtc_session_description_new .offer
      (lib.sdp_message_new_from_text (cstr w.data.sdpOffer)).message).isNone
    (.print "Unable to create SDP object from offer msg\n") rfl
  unfold handleSDPs
  simp only
  generalize (if (gst_webrtc_session_description_new .offer
      (lib.sdp_message_new_from_text (cstr w.data.sdpOffer)).message).isNone = true then _ else _) = w2 at h2 ⊢
  obtain ⟨g1, g2, g3, g4, g5, g6⟩ := h2
  have hsome : ∃ x, w2.data.webrtc_source = some x := Option.isSome_iff_exists.mp g2
  obtain ⟨x, hx⟩ := hsome
  simp only [hx, Option.isNone_some, Bool.false_eq_true, if_false, World.emitWithPromise]
  refine ⟨g1, ?_, g3, ?_, ?_, ?_⟩
  · simp [hx]
  · simp [g4, g5]
  · simp [g5]
  · exact g6.append (NoPatch.one _ rfl)

theorem onRemoteDescSetCallback_stage (lib : Lib) {L : String} {n k : Nat} {w : World}
    (r0 : Option GstStructure) (s0 : Nat)
    (h : Stage L [(k, .onRemoteDescSetCallback)] n w) :
    Stage L [(n, .onAnswerCreatedCallback)] (n + 1)
      (dispatch lib (.promiseChange k .replied r0 s0) w) := by
  obtain ⟨g1, g2, g3, g4, g5, g6⟩ := h
  obtain ⟨x, hx⟩ := Option.isSome_iff_exists.mp g2
  unfold dispatch
  simp only [g4, lookupPromise, if_true]
  unfold onRemoteDescSetCallback World.emitWithPromise World.log
  simp only [ne_eq, not_true_eq_false, if_false, hx]
  refine ⟨g1, ?_, g3, ?_, ?_, ?_⟩
  · simp [hx]
  · simp [g5]
  · simp [g5]
  · refine NoPatch.append (NoPatch.append g6 (NoPatch.one _ ?_)) (NoPatch.one _ ?_) <;> rfl

theorem onAnswerCreatedCallback_submits (lib : Lib) {L : String} {n k : Nat} {w : World}
    (A : GstWebRTCSessionDescription) (m : GstSDPMessage) (st : Nat)
    (hA : A.sdp = some m) (hL : NulFree L) (hText : NulFree (lib.sdp_message_as_text m))
    (h : Stage L [(k, .onAnswerCreatedCallback)] n w) :
    Submitted A (submission lib L (lib.sdp_message_as_text m))
      (dispatch lib (.promiseChange k .replied (some ⟨some A⟩) st) w) := by
  obtain ⟨g1, g2, g3, g4, g5, g6⟩ := h
  obtain ⟨x, hx⟩ := Option.isSome_iff_exists.mp g2
  have hpre : NoPatch (w.trace ++ [Action.promiseWait k .replied] ++
      [Action.emitSetLocalDescription A]) := by
    refine NoPatch.append (NoPatch.append g6 (NoPatch.one _ ?_)) (NoPatch.one _ ?_) <;> rfl
  have hmem : Action.emitSetLocalDescription A ∈ w.trace ++
      [Action.promiseWait k .replied] ++ [Action.emitSetLocalDescription A] :=
    List.mem_append_right _ (List.mem_singleton.mpr rfl)
  unfold dispatch
  simp only [g4, lookupPromise, if_true]
  unfold onAnswerCreatedCallback gst_structure_get_answer World.emit World.log patchAnswer
    World.log World.terminate World.undefined
  simp only [ne_eq, not_true_eq_false, if_false, hx, hA, Option.isNone_some,
    Bool.false_eq_true, g3, cstr_of_nulFree L hL, cstr_of_nulFree _ hText]
  unfold submission
  cases hu : lib.soup_message_new L
  · simp only [Bool.not_false, if_true, Bool.false_eq_true, if_false]
    refine ⟨by simp, _, [Action.print "ERROR: when creating msg in patchAnswer()\n"], ?_,
      hpre, NoPatch.one _ rfl, hmem⟩
    simp
  · simp only [Bool.not_true, Bool.false_eq_true, if_false, if_true]
    split
    · refine ⟨by simp, _, [], ?_, hpre, NoPatch.nil, hmem⟩
      simp
    · refine ⟨by simp, _, [], ?_, hpre, NoPatch.nil, hmem⟩
      simp

theorem Submitted.later {A : GstWebRTCSessionDescription} {mid : List Action} {w : World}
    (h : Submitted A mid w) (a : Action) (ha : a.isPatch = false) :
    Submitted A mid (w.log a) := by
  obtain ⟨h1, pre, post, h2, h3, h4, h5⟩ := h
  refine ⟨h1, pre, post ++ [a], ?_, h3, h4.append (NoPatch.one a ha), h5⟩
  show w.trace ++ [a] = pre ++ mid ++ (post ++ [a])
  rw [h2, List.append_assoc (pre ++ mid)]

theorem Submitted.laterIf {A : GstWebRTCSessionDescription} {mid : List Action} {w : World}
    (h : Submitted A mid w) (c : Bool) (a : Action) (ha : a.isPatch = false) :
    Submitted A mid (if c = true then w.log a else w) := by
  cases c
  · exact h
  · exact h.later a ha

theorem Submitted.alike {A : GstWebRTCSessionDescription} {mid : List Action} {w w1 : World}
    (h : Submitted A mid w) (ht : w1.trace = w.trace) (hp : w1.promises = w.promises) :
    Submitted A mid w1 := by
  unfold Submitted at *
  rw [ht, hp]
  exact h

theorem dispatch_submitted (lib : Lib) {A : GstWebRTCSessionDescription}
    {mid : List Action} {w : World} (e : Event) (he : e ≠ .negotiationNeeded)
    (h : Submitted A mid w) : Submitted A mid (dispatch lib e w) := by
  cases e with
  | negotiationNeeded => exact absurd rfl he
  | padAdded pad caps =>
    have h1 : Submitted A mid { w.log (.printPad pad) with
        links := (gst_element_link_many (w.log (.printPad pad)).links caps).2 } :=
      (h.later (.printPad pad) rfl).alike rfl rfl
    exact h1.laterIf _ (.print "Failed to link source to sink\n") rfl
  | promiseChange p r reply st =>
    unfold dispatch
    simp only [h.1, lookupPromise]
    exact h
  | interrupt => exact h

theorem mainLoop_submitted (lib : Lib) {A : GstWebRTCSessionDescription}
    {mid : List Action} (evs : List Event) (w : World)
    (he : ∀ e ∈ evs, e ≠ .negotiationNeeded) (h : Submitted A mid w) :
    Submitted A mid (mainLoop lib evs w) := by
  induction evs generalizing w with
  | nil => exact h
  | cons e rest ih =>
    have hrest : ∀ x ∈ rest, x ≠ .negotiationNeeded := fun x hx =>
      he x (List.mem_cons_of_mem _ hx)
    have hd := dispatch_submitted lib e (he e (List.mem_cons_self _ _)) h
    unfold mainLoop
    split
    · cases e with
      | interrupt =>
        exact (h.later (.print "\nDestructing resources...\n") rfl).alike rfl rfl
      | negotiationNeeded => exact ih _ hrest hd
      | padAdded pad caps => exact ih _ hrest hd
      | promiseChange p r reply st => exact ih _ hrest hd
    · exact h

theorem isPatchCall_le (a : Action) (h : a.isPatch = false) : a.isPatchCall = false := by
  cases a <;> first | rfl | exact h

theorem isPatchRequest_le (a : Action) (h : a.isPatch = false) : a.isPatchRequest = false := by
  cases a <;> first | rfl | exact h

theorem NoPatch.filterCall {t : List Action} (h : NoPatch t) :
    t.filter Action.isPatchCall = [] :=
  List.filter_eq_nil_iff.mpr (fun a ha => by simp [isPatchCall_le a (h a ha)])

theorem NoPatch.filterRequest {t : List Action} (h : NoPatch t) :
    t.filter Action.isPatchRequest = [] :=
  List.filter_eq_nil_iff.mpr (fun a ha => by simp [isPatchRequest_le a (h a ha)])

/-- C2, as amended: in a run where the offer POST is answered 200 or 201 with
Location L, every set-up call succeeds, and the main loop dispatches one
negotiation round, that is one on-negotiation-needed signal, then the reply
to the promise of set-remote-description, then the reply to the promise of
create-answer with an answer A that carries an SDP message, with only
pad-added notifications between these steps and no on-negotiation-needed
signal afterwards, the answer A is given to the engine as local description
and patchAnswer is called exactly once, with location L and the text of A as
sdpAnswer.  When libsoup builds a request for L, exactly one PATCH is sent:
to L, with content type application/sdp and the text of A as body; when it
does not, no PATCH is sent.  L and the text of A are C strings (no NUL
inside). -/
theorem answer_submitted_once (lib : Lib) (env : Env) (L : String)
    (A : GstWebRTCSessionDescription) (m : GstSDPMessage)
    (r0 : Option GstStructure) (s0 st : Nat) (pads0 pads1 pads2 rest : List Event)
    (hargs : 2 ≤ env.argv.length)
    (huri : lib.soup_message_new (cstr (env.argv.getD 1 "")) = true)
    (hstatus : env.post.status = 200 ∨ env.post.status = 201)
    (hloc : env.post.location = some L) (hL : NulFree L)
    (hsetup : env.setup = setupOk)
    (hA : A.sdp = some m) (hText : NulFree (lib.sdp_message_as_text m))
    (hevents : env.events =
      pads0 ++ Event.negotiationNeeded ::
        (pads1 ++ Event.promiseChange 0 .replied r0 s0 ::
          (pads2 ++ Event.promiseChange 1 .replied (some ⟨some A⟩) st :: rest)))
    (hpads0 : ∀ e ∈ pads0, e.isPad = true) (hpads1 : ∀ e ∈ pads1, e.isPad = true)
    (hpads2 : ∀ e ∈ pads2, e.isPad = true)
    (hrest : ∀ e ∈ rest, e ≠ .negotiationNeeded) :
    Action.emitSetLocalDescription A ∈ (main lib env).trace
    ∧ (main lib env).trace.filter Action.isPatchCall
        = [.callPatchAnswer L (lib.sdp_message_as_text m)]
    ∧ (lib.soup_message_new L = true →
        (main lib env).trace.filter Action.isPatchRequest
          = [.soupSend "PATCH" L "application/sdp" (lib.sdp_message_as_text m)])
    ∧ (lib.soup_message_new L = false →
        (main lib env).trace.filter Action.isPatchRequest = []) := by
  have hnot : ¬ (env.post.status ≠ 200 ∧ env.post.status ≠ 201) := by
    rcases hstatus with h | h <;> simp [h]
  have hlen : ¬ env.argv.length < 2 := by omega
  have hf : mainFetch lib env =
      { data := { whepURL := cstr (env.argv.getD 1 ""), sdpOffer := cstr env.post.body,
                  location := L },
        trace := [.soupSend "POST" (cstr (env.argv.getD 1 "")) "application/sdp" ""] } := by
    unfold mainFetch getPostOffer
    simp only [hlen, if_false, cstr_cstr, huri, Bool.not_true, Bool.false_eq_true, hnot, hloc,
      cstr_of_nulFree L hL]
    rfl
  have hstage : Stage L [] 0 (mainSetup env.setup (mainFetch lib env)) := by
    rw [hf, hsetup]
    refine ⟨rfl, rfl, rfl, rfl, rfl, ?_⟩
    intro a ha
    have ha2 : a ∈ [Action.soupSend "POST" (cstr (env.argv.getD 1 "")) "application/sdp" "",
        Action.print "Start playing...\n", Action.print "Looping...\n"] := ha
    simp only [List.mem_cons, List.mem_singleton, List.not_mem_nil, or_false] at ha2
    rcases ha2 with h | h | h <;> rw [h] <;> rfl
  have hmain : main lib env = mainLoop lib env.events (mainSetup env.setup (mainFetch lib env)) := by
    have h1 : (mainFetch lib env).proc = .running := by rw [hf]
    unfold main
    simp only [h1, hstage.1]
  obtain ⟨wa, ea, sa⟩ := mainLoop_pads lib pads0
    (Event.negotiationNeeded ::
        (pads1 ++ Event.promiseChange 0 .replied r0 s0 ::
          (pads2 ++ Event.promiseChange 1 .replied (some ⟨some A⟩) st :: rest))) _ hpads0 hstage
  obtain ⟨wb, eb, sb⟩ := mainLoop_pads lib pads1
    (Event.promiseChange 0 .replied r0 s0 ::
          (pads2 ++ Event.promiseChange 1 .replied (some ⟨some A⟩) st :: rest)) _ hpads1
    (handleSDPs_stage lib sa)
  obtain ⟨wc, ec, sc⟩ := mainLoop_pads lib pads2
    (Event.promiseChange 1 .replied (some ⟨some A⟩) st :: rest) _ hpads2
    (onRemoteDescSetCallback_stage lib r0 s0 sb)
  have hsub := mainLoop_submitted lib rest _ hrest
    (onAnswerCreatedCallback_submits lib A m st hA hL hText sc)
  have hfinal : main lib env = mainLoop lib rest
      (dispatch lib (.promiseChange 1 .replied (some ⟨some A⟩) st) wc) := by
    rw [hmain, hevents, ea, mainLoop_running lib _ _ wa sa.1 (by simp)]
    show mainLoop lib _ (handleSDPs lib wa) = _
    rw [eb, mainLoop_running lib _ _ wb sb.1 (by simp), ec,
      mainLoop_running lib _ _ wc sc.1 (by simp)]
  rw [hfinal]
  obtain ⟨_, pre, post, ht, hpre, hpost, hmem⟩ := hsub
  rw [ht]
  refine ⟨List.mem_append_left _ (List.mem_append_left _ hmem), ?_, ?_, ?_⟩
  · rw [List.filter_append, List.filter_append, hpre.filterCall, hpost.filterCall]
    unfold submission
    split <;> rfl
  · intro hu
    rw [List.filter_append, List.filter_append, hpre.filterRequest, hpost.filterRequest]
    unfold submission
    rw [if_pos hu]
    rfl
  · intro hu
    rw [List.filter_append, List.filter_append, hpre.filterRequest, hpost.filterRequest]
    unfold submission
    rw [if_neg (by simp [hu])]
    rfl

/-- C2 (counterexamples to the claim as stated).  First run: the offer fetch
succeeds with the relative reference /whep/session/42 as Location, both
promises are replied and the answer is given to set-local-description, yet
no PATCH is sent: patchAnswer is called once, libsoup builds no request for
the location, and the process leaves with exit code 1.  Second run: the
engine signals on-negotiation-needed twice and every step of both rounds
succeeds; onNegotiationNeededCallback has no once-only guard, so patchAnswer
is called twice and two PATCH requests are sent, the process still running. -/
theorem answer_submission_not_exactly_one_patch :
    ((main sampleLib relativeLocationEnv).data.location = "/whep/session/42"
      ∧ Action.emitSetLocalDescription sampleAnswer ∈ (main sampleLib relativeLocationEnv).trace
      ∧ (main sampleLib relativeLocationEnv).trace.filter Action.isPatchCall
          = [.callPatchAnswer "/whep/session/42" "v=0\r\na=recvonly\r\n"]
      ∧ (main sampleLib relativeLocationEnv).trace.filter Action.isPatchRequest = []
      ∧ (main sampleLib relativeLocationEnv).proc = .exited 1)
    ∧ ((main sampleLib twoRoundEnv).data.location = "http://example/whep/session/42"
      ∧ (main sampleLib twoRoundEnv).trace.filter Action.isPatchCall
          = [.callPatchAnswer "http://example/whep/session/42" "v=0\r\na=recvonly\r\n",
             .callPatchAnswer "http://example/whep/session/42" "v=0\r\na=recvonly\r\n"]
      ∧ (main sampleLib twoRoundEnv).trace.filter Action.isPatchRequest
          = [.soupSend "PATCH" "http://example/whep/session/42" "application/sdp"
               "v=0\r\na=recvonly\r\n",
             .soupSend "PATCH" "http://example/whep/session/42" "application/sdp"
               "v=0\r\na=recvonly\r\n"]
      ∧ (main sampleLib twoRoundEnv).proc = .running) := by
  decide

theorem answer_submitted_once_witness :
    Action.emitSetLocalDescription sampleAnswer ∈ (main sampleLib busyEnv).trace
    ∧ (main sampleLib busyEnv).trace.filter Action.isPatchCall
        = [.callPatchAnswer "http://example/whep/session/42" "v=0\r\na=recvonly\r\n"]
    ∧ (main sampleLib busyEnv).trace.filter Action.isPatchRequest
        = [.soupSend "PATCH" "http://example/whep/session/42" "application/sdp"
            "v=0\r\na=recvonly\r\n"] :=
  have h := answer_submitted_once sampleLib busyEnv
    "http://example/whep/session/42" sampleAnswer ⟨7⟩ none 0 204
    [.padAdded "src_0" ⟨true, true, true⟩] [.padAdded "src_1" ⟨true, true, true⟩] []
    [.padAdded "src_2" ⟨true, true, true⟩, .interrupt]
    (by decide) (by decide) (Or.inr rfl) rfl (by decide) rfl rfl (by decide) rfl
    (by decide) (by decide) (by decide) (by decide)
  ⟨h.1, h.2.1, h.2.2.1 (by decide)⟩

end WhepPlay
